import Mathlib

/-!
# Verification of the redismultiwrite write-replication proxy

A shallow embedding of `redismultiwrite.py`: a proxy in front of one
primary ("local") redis connection and a list of secondary ("remote")
connections.  Replicated operations (`delete_everywhere`, ...) run the
operation against every destination, retry each destination on
connectivity errors up to a fixed budget, return only the primary's
outcome, and drain every secondary attempt before returning.

Conventions of the embedding:
* A store connection is a `Conn`: a host label, a capability surface
  (`methods`), and an abstract `behavior` mapping the index of the n-th
  underlying invocation on that connection (plus the operation name and
  arguments) to a result.  The per-connection invocation log (the
  `callstack` of the test doubles) is the list of operation names in
  invocation order; `behavior` is indexed by the log length.
* Python exceptions become the inductive `Exc`; the class hierarchy
  (`TooManyRetries < redis.ConnectionError < redis.RedisError`) becomes the
  boolean classifiers `isConnectionError` / `isRedisError`, which mirror
  which `except` clause of the source would catch a given value.
* Logging calls and the explicit `greenthread.sleep(0)` yields become an
  `Event` trace carried alongside each result.
* The eventlet green threads of `_run_everywhere` are embedded
  sequentially: each destination's attempt is an independent deterministic
  computation, so the coordinator's output records the primary's completed
  attempt and the completed attempt of every secondary; "the call returns
  only after all secondaries finished" is rendered structurally as the
  presence of every secondary's fully evaluated attempt in the output.
-/

set_option autoImplicit false

namespace RedisMW

/-- Python exception values relevant to the source.
`connectionError` is `redis.ConnectionError`, `tooManyRetries` is the
source's `TooManyRetries(exc, host)` (a subclass of `redis.ConnectionError`
carrying a `host` field), `redisError` is a non-connectivity
`redis.RedisError`, `attributeError` is `AttributeError`, and `otherError`
is any exception outside the `redis.RedisError` hierarchy. -/
inductive Exc where
  | connectionError (msg : String)
  | tooManyRetries (msg : String) (host : String)
  | redisError (msg : String)
  | attributeError (name : String)
  | otherError (msg : String)
  deriving DecidableEq, Repr

/-- Python `e.message` (the argument the exception was constructed with). -/
def Exc.message : Exc → String
  | .connectionError m => m
  | .tooManyRetries m _ => m
  | .redisError m => m
  | .attributeError n => n
  | .otherError m => m

/-- The `host` attribute: only `TooManyRetries` instances carry one. -/
def Exc.hostOf : Exc → Option String
  | .tooManyRetries _ h => some h
  | _ => none

/-- Would `except redis.ConnectionError` catch this exception?
`TooManyRetries` subclasses `redis.ConnectionError`, so it is caught. -/
def isConnectionError : Exc → Bool
  | .connectionError _ => true
  | .tooManyRetries _ _ => true
  | _ => false

/-- Would `except redis.RedisError` catch this exception?
(`redis.ConnectionError`, hence also `TooManyRetries`, subclasses it.) -/
def isRedisError : Exc → Bool
  | .connectionError _ => true
  | .tooManyRetries _ _ => true
  | .redisError _ => true
  | _ => false

/-- `TooManyRetries(exc, host)` where `exc` is the recorded last
connectivity error (`None` when no iteration ran).  The constructor reads
`exc.message`, so with `exc = None` Python fails with an `AttributeError`
before the `TooManyRetries` is ever raised; that is faithful to
`redismultiwrite.py` when `retries = 0`. -/
def mkTooManyRetries : Option String → String → Exc
  | some m, h => .tooManyRetries m h
  | none, _ => .attributeError "message"

/-- Store values returned by redis commands (modeled abstractly). -/
inductive RValue where
  | bool (b : Bool)
  | int (n : Int)
  | str (s : String)
  | nil
  deriving DecidableEq, Repr

/-- Python truthiness, as used by `bool(...)` in `delete_everywhere`. -/
def truthy : RValue → Bool
  | .bool b => b
  | .int n => decide (n ≠ 0)
  | .str s => decide (s ≠ "")
  | .nil => false

/-- Outcome of one underlying invocation on a connection. -/
inductive CallResult where
  | ok (v : RValue)
  | exn (e : Exc)
  deriving DecidableEq, Repr

def CallResult.isOk : CallResult → Bool
  | .ok _ => true
  | .exn _ => false

/-- Observable side effects: log calls and explicit `greenthread.sleep(0)`
voluntary yields. -/
inductive Event where
  | logWarn (msg : String)
  | logError (msg : String)
  | logException (msg : String)
  | yield
  deriving DecidableEq, Repr

/-- One store connection (a `StrictRedis` object, or a test double).
`host` is `connection_pool.connection_kwargs.get('host')`; `methods` is the
capability surface (which attribute names the object has); `behavior n op
args` is the result of the n-th underlying invocation on this connection
when it invokes `op` with `args`. -/
structure Conn where
  host : Option String
  methods : String → Bool
  behavior : Nat → String → List RValue → CallResult

/-- `conn.connection_pool.connection_kwargs.get('host', '[Unknown]')`. -/
def hostLabel (c : Conn) : String := c.host.getD "[Unknown]"

/-- `getattr(conn, op)(*args)`: looking up a missing operation raises
`AttributeError` before any invocation happens; otherwise the invocation is
recorded on the log and the connection's behavior decides the outcome. -/
def invoke (c : Conn) (log : List String) (op : String) (args : List RValue) :
    CallResult × List String :=
  if c.methods op then (c.behavior log.length op args, log ++ [op])
  else (.exn (.attributeError op), log)

/-- A logical write: a simple `(operation, args)` request, or an ordered
batch executed as one pipeline. -/
inductive WriteRequest where
  | simple (op : String) (args : List RValue)
  | batch (cmds : List (String × List RValue))

/-- Modelled from the spec: the body of a batch attempt after the pipeline
has been opened — enqueue every operation in order, then execute the
pipeline and return its result.  (The pipeline variant of the attempt body
is code of this repository exercised by `test_pipeline_everywhere` but not
present under `src/`.) -/
def execBatch (c : Conn) : List String → List (String × List RValue) →
    CallResult × List String
  | log, [] => invoke c log "execute" []
  | log, (op, args) :: rest =>
    match invoke c log op args with
    | (.ok _, log2) => execBatch c log2 rest
    | (.exn e, log2) => (.exn e, log2)

/-- Execute one `WriteRequest` against a connection.  A simple request is
exactly the `getattr(conn, op)(*args)` of `_attempt`
(redismultiwrite.py:121).  Modelled from the spec: the batch case opens a
pipeline, enqueues every operation in order, and executes the pipeline
(`pipeline_everywhere` is not under `src/`; only its tests are). -/
def execRequest (c : Conn) (log : List String) : WriteRequest →
    CallResult × List String
  | .simple op args => invoke c log op args
  | .batch cmds =>
    match invoke c log "pipeline" [] with
    | (.ok _, log2) => execBatch c log2 cmds
    | (.exn e, log2) => (.exn e, log2)

instance {ε α : Type} [DecidableEq ε] [DecidableEq α] : DecidableEq (Except ε α)
  | .ok a, .ok b =>
    if h : a = b then .isTrue (by rw [h])
    else .isFalse (fun hh => h (Except.ok.inj hh))
  | .error a, .error b =>
    if h : a = b then .isTrue (by rw [h])
    else .isFalse (fun hh => h (Except.error.inj hh))
  | .ok _, .error _ => .isFalse (fun hh => Except.noConfusion hh)
  | .error _, .ok _ => .isFalse (fun hh => Except.noConfusion hh)

/-- The completed outcome of one destination attempt: the value returned or
exception raised, the connection's invocation log, and the emitted
log/yield events. -/
structure AttemptOut where
  result : Except Exc RValue
  log : List String
  events : List Event
  deriving DecidableEq, Repr

/-- The retry loop of `_attempt` (redismultiwrite.py:115-130), with the
remaining iteration count as fuel.  Each iteration executes the request;
on success the value is returned; a `redis.ConnectionError` is logged as a
warning and recorded as the last connectivity error; any other
`redis.RedisError` is logged, a yield happens, and it is re-raised; an
exception outside `redis.RedisError` is not caught and propagates.  When
the loop exhausts, one yield happens and
`TooManyRetries(last_connection_error, host)` is raised. -/
def attemptLoop (c : Conn) (req : WriteRequest) (host : String) :
    Nat → Option String → List String → List Event → AttemptOut
  | 0, last, log, evs =>
    { result := .error (mkTooManyRetries last host), log := log,
      events := evs ++ [.yield] }
  | Nat.succ n, _lastErr, log, evs =>
    match execRequest c log req with
    | (.ok v, log2) => { result := .ok v, log := log2, events := evs }
    | (.exn e, log2) =>
      if isConnectionError e then
        attemptLoop c req host n (some e.message) log2
          (evs ++ [.logWarn ("Connectivity issue with " ++ host)])
      else if isRedisError e then
        { result := .error e, log := log2,
          events := evs ++ [.logException ("Redis exception with " ++ host), .yield] }
      else
        { result := .error e, log := log2, events := evs }

/-- `_attempt(conn, op, args)` generalized over the request shape: resolve
the host label, then run the retry loop with the configured budget. -/
def attemptRequest (retries : Nat) (c : Conn) (req : WriteRequest) : AttemptOut :=
  attemptLoop c req (hostLabel c) retries none [] []

/-- `_attempt(conn, op, args)` (redismultiwrite.py:115-130). -/
def attempt (retries : Nat) (c : Conn) (op : String) (args : List RValue) :
    AttemptOut :=
  attemptRequest retries c (.simple op args)

/-- The proxy state fixed at construction (`__init__`): `loc` stands for
the source's `self.local` (`local` is a Lean keyword), `remote` for
`self.remote`, `retries` for `self.retries`.  The green pool and the log
sink carry no modeled state. -/
structure RedisMultiWrite where
  loc : Conn
  remote : List Conn
  retries : Nat

/-- `_wait_pile` (redismultiwrite.py:86-94): repeatedly take the next
completed secondary outcome; `StopIteration` ends the loop; every other
outcome — value or exception — is discarded by `except Exception: pass`,
producing no events. -/
def waitPile : List (Except Exc RValue) → List Event
  | [] => []
  | _ :: rest => waitPile rest

/-- The completed outcome of a replicated call: the caller-visible result,
the primary's completed attempt, the completed attempt of every secondary,
the coordinator's own log events, and the events of the drain loop. -/
structure RunOut where
  result : Except Exc RValue
  locAttempt : AttemptOut
  remoteAttempts : List AttemptOut
  coordEvents : List Event
  drainEvents : List Event

/-- `_run_everywhere(op, args)` (redismultiwrite.py:96-113), generalized
over the request shape.  With no remotes, it is exactly
`self._attempt(self.local, op, args)` — no pool, no coordinator logging,
no drain.  Otherwise the primary attempt and one attempt per secondary are
spawned; the primary's outcome is awaited and returned or re-raised (a
primary `TooManyRetries` is additionally logged via
`self.log.error(e.message)`); the `finally` clause drains every secondary
outcome through `_wait_pile`. -/
def runEverywhere (rmw : RedisMultiWrite) (req : WriteRequest) : RunOut :=
  if rmw.remote.isEmpty then
    let a := attemptRequest rmw.retries rmw.loc req
    { result := a.result, locAttempt := a, remoteAttempts := [],
      coordEvents := [], drainEvents := [] }
  else
    let a := attemptRequest rmw.retries rmw.loc req
    let rs := rmw.remote.map (fun c => attemptRequest rmw.retries c req)
    let coord :=
      match a.result with
      | .error (.tooManyRetries m _) => [Event.logError m]
      | _ => []
    { result := a.result, locAttempt := a, remoteAttempts := rs,
      coordEvents := coord,
      drainEvents := waitPile (rs.map (fun r => r.result)) }

/-- `delete_everywhere(key)` (redismultiwrite.py:132-144):
`bool(self._run_everywhere('delete', (key, )))`. -/
def delete_everywhere (rmw : RedisMultiWrite) (key : RValue) : RunOut :=
  let r := runEverywhere rmw (.simple "delete" [key])
  { r with result := r.result.map (fun v => RValue.bool (truthy v)) }

/-- `set_everywhere(key, value)` (redismultiwrite.py:146-160). -/
def set_everywhere (rmw : RedisMultiWrite) (key value : RValue) : RunOut :=
  runEverywhere rmw (.simple "set" [key, value])

/-- `setex_everywhere(key, seconds, value)` (redismultiwrite.py:162-176). -/
def setex_everywhere (rmw : RedisMultiWrite) (key seconds value : RValue) : RunOut :=
  runEverywhere rmw (.simple "setex" [key, seconds, value])

/-- `expire_everywhere(key, seconds)` (redismultiwrite.py:178-191). -/
def expire_everywhere (rmw : RedisMultiWrite) (key seconds : RValue) : RunOut :=
  runEverywhere rmw (.simple "expire" [key, seconds])

/-- Modelled from the spec: `pipeline_everywhere(ordered_commands)` wraps
the ordered (operation, args) sequence as a batch request and calls the
fan-out coordinator (`pipeline_everywhere` is exercised by
`test_pipeline_everywhere` but its definition is not under `src/`). -/
def pipeline_everywhere (rmw : RedisMultiWrite)
    (cmds : List (String × List RValue)) : RunOut :=
  runEverywhere rmw (.batch cmds)

/-- Calling `op` directly on a connection (the non-replicated pass-through
path): a single invocation, no retry loop. -/
def directCall (c : Conn) (op : String) (args : List RValue) :
    Except Exc RValue × List String :=
  match invoke c [] op args with
  | (.ok v, log) => (.ok v, log)
  | (.exn e, log) => (.error e, log)

/-- The attribute names defined on a `RedisMultiWrite` instance itself
(`__init__` attributes and class methods); Python consults `__getattr__`
only for names outside this list. -/
def definedAttrs : List String :=
  ["local", "remote", "retries", "log", "pool",
   "_wait_pile", "_run_everywhere", "_attempt",
   "delete_everywhere", "set_everywhere", "setex_everywhere",
   "expire_everywhere"]

/-- The proxy's public call surface for a simple call `name(args)`:
the four replicated methods dispatch through the fan-out coordinator; any
other name defined on the instance resolves to a proxy-internal attribute
(out of modeled scope, `none`); every remaining name goes through
`__getattr__` (redismultiwrite.py:77-84), i.e. `getattr(self.local,
name)`: a pass-through call on the primary when the primary has the
attribute, and an `AttributeError` — before any destination is contacted —
when it does not.  The output records the caller-visible result, the
primary's invocation log, and each secondary's invocation log. -/
def proxyCall (rmw : RedisMultiWrite) (name : String) (args : List RValue) :
    Option (Except Exc RValue × List String × List (List String)) :=
  if name = "delete_everywhere" then
    match args with
    | [key] =>
      let r := delete_everywhere rmw key
      some (r.result, r.locAttempt.log, r.remoteAttempts.map (fun a => a.log))
    | _ => none
  else if name = "set_everywhere" then
    match args with
    | [key, value] =>
      let r := set_everywhere rmw key value
      some (r.result, r.locAttempt.log, r.remoteAttempts.map (fun a => a.log))
    | _ => none
  else if name = "setex_everywhere" then
    match args with
    | [key, seconds, value] =>
      let r := setex_everywhere rmw key seconds value
      some (r.result, r.locAttempt.log, r.remoteAttempts.map (fun a => a.log))
    | _ => none
  else if name = "expire_everywhere" then
    match args with
    | [key, seconds] =>
      let r := expire_everywhere rmw key seconds
      some (r.result, r.locAttempt.log, r.remoteAttempts.map (fun a => a.log))
    | _ => none
  else if name ∈ definedAttrs then none
  else if rmw.loc.methods name then
    let r := directCall rmw.loc name args
    some (r.fst, r.snd, rmw.remote.map (fun _ => []))
  else
    some (.error (.attributeError name), [], rmw.remote.map (fun _ => []))

/-! ## Concrete connections (after the test doubles of the repository) -/

/-- The capability surface of the `StrictRedisMock` test double. -/
def mockMethods : String → Bool := fun s =>
  (["get", "delete", "set", "setex", "expire", "pipeline", "execute"]).contains s

/-- A healthy connection: every invocation succeeds. -/
def goodConn : Conn :=
  { host := some "local", methods := mockMethods,
    behavior := fun _ _ _ => .ok (.int 1) }

/-- A broken connection: every invocation raises `redis.ConnectionError`. -/
def brokenConn : Conn :=
  { host := some "broken", methods := mockMethods,
    behavior := fun _ _ _ => .exn (.connectionError "connection refused") }

/-- Fails with a connectivity error on the first two invocations, then
succeeds. -/
def flakyConn : Conn :=
  { host := some "flaky", methods := mockMethods,
    behavior := fun n _ _ =>
      if n < 2 then .exn (.connectionError ("fail " ++ toString n))
      else .ok (.int 1) }

/-- Fails with a connectivity error on the first invocation only. -/
def onceFlakyConn : Conn :=
  { host := some "onceflaky", methods := mockMethods,
    behavior := fun n _ _ =>
      if n = 0 then .exn (.connectionError "fail 0") else .ok (.int 1) }

/-- Every invocation raises a non-connectivity `redis.RedisError`. -/
def storeErrConn : Conn :=
  { host := some "storeerr", methods := mockMethods,
    behavior := fun _ _ _ => .exn (.redisError "bad command") }

/-! ## Basic lemmas about the retry loop -/

theorem isConnectionError_false_of_not_redis {e : Exc}
    (h : isRedisError e = false) : isConnectionError e = false := by
  cases e <;> simp_all [isRedisError, isConnectionError]

theorem waitPile_eq_nil (l : List (Except Exc RValue)) : waitPile l = [] := by
  induction l with
  | nil => rfl
  | cons x rest ih => simpa [waitPile] using ih

theorem attemptLoop_zero (c : Conn) (req : WriteRequest) (host : String)
    (last : Option String) (log : List String) (evs : List Event) :
    attemptLoop c req host 0 last log evs =
      { result := .error (mkTooManyRetries last host), log := log,
        events := evs ++ [.yield] } := rfl

theorem attemptLoop_okStep (c : Conn) (req : WriteRequest) (host : String)
    (n : Nat) (last : Option String) (log log2 : List String)
    (evs : List Event) (v : RValue)
    (hexec : execRequest c log req = (.ok v, log2)) :
    attemptLoop c req host (n + 1) last log evs =
      { result := .ok v, log := log2, events := evs } := by
  simp [attemptLoop, hexec]

theorem attemptLoop_connStep (c : Conn) (req : WriteRequest) (host : String)
    (n : Nat) (last : Option String) (log log2 : List String)
    (evs : List Event) (e : Exc)
    (hexec : execRequest c log req = (.exn e, log2))
    (hconn : isConnectionError e = true) :
    attemptLoop c req host (n + 1) last log evs =
      attemptLoop c req host n (some e.message) log2
        (evs ++ [.logWarn ("Connectivity issue with " ++ host)]) := by
  simp [attemptLoop, hexec, hconn]

theorem attemptLoop_storeStep (c : Conn) (req : WriteRequest) (host : String)
    (n : Nat) (last : Option String) (log log2 : List String)
    (evs : List Event) (e : Exc)
    (hexec : execRequest c log req = (.exn e, log2))
    (hconn : isConnectionError e = false)
    (hred : isRedisError e = true) :
    attemptLoop c req host (n + 1) last log evs =
      { result := .error e, log := log2,
        events := evs ++ [.logException ("Redis exception with " ++ host), .yield] } := by
  simp [attemptLoop, hexec, hconn, hred]

theorem attemptLoop_uncaughtStep (c : Conn) (req : WriteRequest) (host : String)
    (n : Nat) (last : Option String) (log log2 : List String)
    (evs : List Event) (e : Exc)
    (hexec : execRequest c log req = (.exn e, log2))
    (hred : isRedisError e = false) :
    attemptLoop c req host (n + 1) last log evs =
      { result := .error e, log := log2, events := evs } := by
  simp [attemptLoop, hexec, isConnectionError_false_of_not_redis hred, hred]

theorem execRequest_simple (c : Conn) (log : List String) (op : String)
    (args : List RValue) (hop : c.methods op = true) :
    execRequest c log (.simple op args) =
      (c.behavior log.length op args, log ++ [op]) := by
  simp [execRequest, invoke, hop]

/-! ## Scenario lemmas: the full outcome of one attempt under a given
behavior pattern.  `msgs i` is the message of the connectivity error
raised by the i-th invocation (absolute index into the connection's
invocation sequence). -/

theorem attemptLoop_exhaust (c : Conn) (op : String) (args : List RValue)
    (host : String) (msgs : Nat → String) (hop : c.methods op = true) :
    ∀ (n : Nat), 1 ≤ n →
      ∀ (log : List String) (evs : List Event) (last : Option String),
      (∀ j, j < n → c.behavior (log.length + j) op args =
        .exn (.connectionError (msgs (log.length + j)))) →
      attemptLoop c (.simple op args) host n last log evs =
        { result := .error (.tooManyRetries (msgs (log.length + n - 1)) host),
          log := log ++ List.replicate n op,
          events := evs ++
            List.replicate n (.logWarn ("Connectivity issue with " ++ host)) ++
            [.yield] } := by
  intro n
  induction n with
  | zero => intro h; exact absurd h (by omega)
  | succ n ih =>
    intro _ log evs last hbeh
    have h0 := hbeh 0 (Nat.succ_pos n)
    simp only [Nat.add_zero] at h0
    have hexec : execRequest c log (.simple op args) =
        (.exn (.connectionError (msgs log.length)), log ++ [op]) := by
      rw [execRequest_simple c log op args hop, h0]
    rw [attemptLoop_connStep c _ host n last log (log ++ [op]) evs _ hexec rfl]
    cases n with
    | zero =>
      simp [attemptLoop_zero, mkTooManyRetries, Exc.message, List.replicate]
    | succ m =>
      have hbeh2 : ∀ j, j < m + 1 →
          c.behavior ((log ++ [op]).length + j) op args =
            .exn (.connectionError (msgs ((log ++ [op]).length + j))) := by
        intro j hj
        have h := hbeh (j + 1) (by omega)
        have hidx : log.length + (j + 1) = (log ++ [op]).length + j := by
          simp; omega
        rwa [hidx] at h
      have key := ih (by omega) (log ++ [op])
        (evs ++ [Event.logWarn ("Connectivity issue with " ++ host)])
        (some (Exc.message (Exc.connectionError (msgs log.length)))) hbeh2
      rw [key]
      have hidx2 : (log ++ [op]).length + (m + 1) - 1 =
          log.length + (m + 1 + 1) - 1 := by simp; omega
      rw [hidx2]
      simp [List.replicate_succ, List.append_assoc]

theorem attemptLoop_succeed (c : Conn) (op : String) (args : List RValue)
    (host : String) (msgs : Nat → String) (v : RValue)
    (hop : c.methods op = true) :
    ∀ (m : Nat) (n : Nat), m < n →
      ∀ (log : List String) (evs : List Event) (last : Option String),
      (∀ j, j < m → c.behavior (log.length + j) op args =
        .exn (.connectionError (msgs (log.length + j)))) →
      c.behavior (log.length + m) op args = .ok v →
      attemptLoop c (.simple op args) host n last log evs =
        { result := .ok v, log := log ++ List.replicate (m + 1) op,
          events := evs ++
            List.replicate m (.logWarn ("Connectivity issue with " ++ host)) } := by
  intro m
  induction m with
  | zero =>
    intro n hn log evs last _ hok
    obtain ⟨n, rfl⟩ : ∃ k, n = k + 1 := ⟨n - 1, by omega⟩
    simp only [Nat.add_zero] at hok
    have hexec : execRequest c log (.simple op args) = (.ok v, log ++ [op]) := by
      rw [execRequest_simple c log op args hop, hok]
    rw [attemptLoop_okStep c _ host n last log (log ++ [op]) evs v hexec]
    simp [List.replicate]
  | succ m ih =>
    intro n hn log evs last hbeh hok
    obtain ⟨n, rfl⟩ : ∃ k, n = k + 1 := ⟨n - 1, by omega⟩
    have h0 := hbeh 0 (Nat.succ_pos m)
    simp only [Nat.add_zero] at h0
    have hexec : execRequest c log (.simple op args) =
        (.exn (.connectionError (msgs log.length)), log ++ [op]) := by
      rw [execRequest_simple c log op args hop, h0]
    rw [attemptLoop_connStep c _ host n last log (log ++ [op]) evs _ hexec rfl]
    have hbeh2 : ∀ j, j < m →
        c.behavior ((log ++ [op]).length + j) op args =
          .exn (.connectionError (msgs ((log ++ [op]).length + j))) := by
      intro j hj
      have h := hbeh (j + 1) (by omega)
      have hidx : log.length + (j + 1) = (log ++ [op]).length + j := by
        simp; omega
      rwa [hidx] at h
    have hok2 : c.behavior ((log ++ [op]).length + m) op args = .ok v := by
      have hidx : log.length + (m + 1) = (log ++ [op]).length + m := by
        simp; omega
      rwa [hidx] at hok
    have key := ih n (by omega) (log ++ [op])
      (evs ++ [Event.logWarn ("Connectivity issue with " ++ host)])
      (some (Exc.message (Exc.connectionError (msgs log.length)))) hbeh2 hok2
    rw [key]
    simp [List.replicate_succ, List.append_assoc]

theorem attemptLoop_storeRun (c : Conn) (op : String) (args : List RValue)
    (host : String) (msgs : Nat → String) (e : Exc)
    (hop : c.methods op = true)
    (hconn : isConnectionError e = false) (hred : isRedisError e = true) :
    ∀ (m : Nat) (n : Nat), m < n →
      ∀ (log : List String) (evs : List Event) (last : Option String),
      (∀ j, j < m → c.behavior (log.length + j) op args =
        .exn (.connectionError (msgs (log.length + j)))) →
      c.behavior (log.length + m) op args = .exn e →
      attemptLoop c (.simple op args) host n last log evs =
        { result := .error e, log := log ++ List.replicate (m + 1) op,
          events := evs ++
            List.replicate m (.logWarn ("Connectivity issue with " ++ host)) ++
            [.logException ("Redis exception with " ++ host), .yield] } := by
  intro m
  induction m with
  | zero =>
    intro n hn log evs last _ herr
    obtain ⟨n, rfl⟩ : ∃ k, n = k + 1 := ⟨n - 1, by omega⟩
    simp only [Nat.add_zero] at herr
    have hexec : execRequest c log (.simple op args) = (.exn e, log ++ [op]) := by
      rw [execRequest_simple c log op args hop, herr]
    rw [attemptLoop_storeStep c _ host n last log (log ++ [op]) evs e hexec hconn hred]
    simp [List.replicate]
  | succ m ih =>
    intro n hn log evs last hbeh herr
    obtain ⟨n, rfl⟩ : ∃ k, n = k + 1 := ⟨n - 1, by omega⟩
    have h0 := hbeh 0 (Nat.succ_pos m)
    simp only [Nat.add_zero] at h0
    have hexec : execRequest c log (.simple op args) =
        (.exn (.connectionError (msgs log.length)), log ++ [op]) := by
      rw [execRequest_simple c log op args hop, h0]
    rw [attemptLoop_connStep c _ host n last log (log ++ [op]) evs _ hexec rfl]
    have hbeh2 : ∀ j, j < m →
        c.behavior ((log ++ [op]).length + j) op args =
          .exn (.connectionError (msgs ((log ++ [op]).length + j))) := by
      intro j hj
      have h := hbeh (j + 1) (by omega)
      have hidx : log.length + (j + 1) = (log ++ [op]).length + j := by
        simp; omega
      rwa [hidx] at h
    have herr2 : c.behavior ((log ++ [op]).length + m) op args = .exn e := by
      have hidx : log.length + (m + 1) = (log ++ [op]).length + m := by
        simp; omega
      rwa [hidx] at herr
    have key := ih n (by omega) (log ++ [op])
      (evs ++ [Event.logWarn ("Connectivity issue with " ++ host)])
      (some (Exc.message (Exc.connectionError (msgs log.length)))) hbeh2 herr2
    rw [key]
    simp [List.replicate_succ, List.append_assoc]

/-! ## Attempt-level corollaries (fresh log and event trace) -/

theorem attempt_exhaust (retries : Nat) (c : Conn) (op : String)
    (args : List RValue) (msgs : Nat → String)
    (hop : c.methods op = true) (hR : 1 ≤ retries)
    (hbeh : ∀ j, j < retries →
      c.behavior j op args = .exn (.connectionError (msgs j))) :
    attempt retries c op args =
      { result := .error (.tooManyRetries (msgs (retries - 1)) (hostLabel c)),
        log := List.replicate retries op,
        events :=
          List.replicate retries
            (.logWarn ("Connectivity issue with " ++ hostLabel c)) ++
          [.yield] } := by
  have key := attemptLoop_exhaust c op args (hostLabel c) msgs hop retries hR
    [] [] none (by simpa using hbeh)
  simpa [attempt, attemptRequest] using key

theorem attempt_succeed (retries : Nat) (c : Conn) (op : String)
    (args : List RValue) (msgs : Nat → String) (v : RValue) (m : Nat)
    (hop : c.methods op = true) (hm : m < retries)
    (hbeh : ∀ j, j < m →
      c.behavior j op args = .exn (.connectionError (msgs j)))
    (hok : c.behavior m op args = .ok v) :
    attempt retries c op args =
      { result := .ok v, log := List.replicate (m + 1) op,
        events :=
          List.replicate m
            (.logWarn ("Connectivity issue with " ++ hostLabel c)) } := by
  have key := attemptLoop_succeed c op args (hostLabel c) msgs v hop m retries
    hm [] [] none (by simpa using hbeh) (by simpa using hok)
  simpa [attempt, attemptRequest] using key

theorem attempt_storeErr (retries : Nat) (c : Conn) (op : String)
    (args : List RValue) (msgs : Nat → String) (e : Exc) (m : Nat)
    (hop : c.methods op = true) (hm : m < retries)
    (hconn : isConnectionError e = false) (hred : isRedisError e = true)
    (hbeh : ∀ j, j < m →
      c.behavior j op args = .exn (.connectionError (msgs j)))
    (herr : c.behavior m op args = .exn e) :
    attempt retries c op args =
      { result := .error e, log := List.replicate (m + 1) op,
        events :=
          List.replicate m
            (.logWarn ("Connectivity issue with " ++ hostLabel c)) ++
          [.logException ("Redis exception with " ++ hostLabel c), .yield] } := by
  have key := attemptLoop_storeRun c op args (hostLabel c) msgs e hop hconn hred
    m retries hm [] [] none (by simpa using hbeh) (by simpa using herr)
  simpa [attempt, attemptRequest] using key

/-! ## Fan-out coordinator lemmas -/

theorem runEverywhere_result_eq (rmw : RedisMultiWrite) (req : WriteRequest) :
    (runEverywhere rmw req).result =
      (attemptRequest rmw.retries rmw.loc req).result := by
  by_cases h : rmw.remote.isEmpty <;> simp [runEverywhere, h]

theorem runEverywhere_locAttempt (rmw : RedisMultiWrite) (req : WriteRequest) :
    (runEverywhere rmw req).locAttempt =
      attemptRequest rmw.retries rmw.loc req := by
  by_cases h : rmw.remote.isEmpty <;> simp [runEverywhere, h]

theorem runEverywhere_remoteAttempts (rmw : RedisMultiWrite)
    (req : WriteRequest) :
    (runEverywhere rmw req).remoteAttempts =
      rmw.remote.map (fun c => attemptRequest rmw.retries c req) := by
  by_cases h : rmw.remote.isEmpty
  · have : rmw.remote = [] := List.isEmpty_iff.mp h
    simp [runEverywhere, h, this]
  · simp [runEverywhere, h]

theorem runEverywhere_drainEvents (rmw : RedisMultiWrite)
    (req : WriteRequest) :
    (runEverywhere rmw req).drainEvents = [] := by
  by_cases h : rmw.remote.isEmpty <;> simp [runEverywhere, h, waitPile_eq_nil]

theorem runEverywhere_noRemote (rmw : RedisMultiWrite) (req : WriteRequest)
    (h : rmw.remote = []) :
    runEverywhere rmw req =
      { result := (attemptRequest rmw.retries rmw.loc req).result,
        locAttempt := attemptRequest rmw.retries rmw.loc req,
        remoteAttempts := [], coordEvents := [], drainEvents := [] } := by
  simp [runEverywhere, h]

/-! ## Pipeline (batch) lemmas -/

theorem execBatch_allOk (c : Conn) (g : Nat → String → List RValue → RValue)
    (hb : ∀ n op args, c.behavior n op args = .ok (g n op args))
    (hexecm : c.methods "execute" = true) :
    ∀ (cmds : List (String × List RValue)) (log : List String),
      (∀ p ∈ cmds, c.methods p.fst = true) →
      execBatch c log cmds =
        (.ok (g (log.length + cmds.length) "execute" []),
         log ++ cmds.map Prod.fst ++ ["execute"]) := by
  intro cmds
  induction cmds with
  | nil =>
    intro log _
    simp [execBatch, invoke, hexecm, hb]
  | cons p rest ih =>
    intro log hops
    obtain ⟨op, args⟩ := p
    have hop : c.methods op = true := hops (op, args) (by simp)
    have key := ih (log ++ [op]) (fun q hq => hops q (by simp [hq]))
    have hidx : (log ++ [op]).length + rest.length =
        log.length + (rest.length + 1) := by simp; omega
    rw [hidx] at key
    simp only [execBatch, invoke, hop, if_true, hb]
    rw [key]
    simp [List.append_assoc]

theorem execRequest_batch_allOk (c : Conn)
    (g : Nat → String → List RValue → RValue)
    (hb : ∀ n op args, c.behavior n op args = .ok (g n op args))
    (hpipe : c.methods "pipeline" = true)
    (hexecm : c.methods "execute" = true)
    (cmds : List (String × List RValue)) (log : List String)
    (hops : ∀ p ∈ cmds, c.methods p.fst = true) :
    execRequest c log (.batch cmds) =
      (.ok (g (log.length + 1 + cmds.length) "execute" []),
       log ++ "pipeline" :: (cmds.map Prod.fst ++ ["execute"])) := by
  have key := execBatch_allOk c g hb hexecm cmds (log ++ ["pipeline"]) hops
  simp only [execRequest, invoke, hpipe, if_true, hb]
  rw [key]
  simp [List.append_assoc]

theorem attemptRequest_batch_allOk (retries : Nat) (c : Conn)
    (g : Nat → String → List RValue → RValue)
    (cmds : List (String × List RValue))
    (hb : ∀ n op args, c.behavior n op args = .ok (g n op args))
    (hR : 1 ≤ retries)
    (hpipe : c.methods "pipeline" = true)
    (hexecm : c.methods "execute" = true)
    (hops : ∀ p ∈ cmds, c.methods p.fst = true) :
    attemptRequest retries c (.batch cmds) =
      { result := .ok (g (cmds.length + 1) "execute" []),
        log := "pipeline" :: (cmds.map Prod.fst ++ ["execute"]),
        events := [] } := by
  obtain ⟨n, rfl⟩ : ∃ k, retries = k + 1 := ⟨retries - 1, by omega⟩
  have hexec := execRequest_batch_allOk c g hb hpipe hexecm cmds [] hops
  simp only [List.length_nil, List.nil_append, Nat.zero_add] at hexec
  rw [Nat.add_comm 1 cmds.length] at hexec
  unfold attemptRequest
  rw [attemptLoop_okStep c _ (hostLabel c) n none [] _ [] _ hexec]

/-! ## Claim theorems -/

/-- C1: for every replicated call, the value returned or exception raised
is exactly the primary attempt's outcome — no secondary behavior ever
reaches the caller — and the coordinator's output contains the fully
completed attempt of every secondary (the sequential rendering of "the
call returns or raises only after every secondary attempt has run to
completion"), while the drain loop emits nothing. -/
theorem C1_secondary_containment (rmw : RedisMultiWrite) (req : WriteRequest)
    (_hsec : rmw.remote ≠ []) :
    (runEverywhere rmw req).result =
        (attemptRequest rmw.retries rmw.loc req).result
    ∧ (runEverywhere rmw req).remoteAttempts =
        rmw.remote.map (fun c => attemptRequest rmw.retries c req)
    ∧ (runEverywhere rmw req).drainEvents = [] := by
  refine ⟨runEverywhere_result_eq rmw req, ?_, runEverywhere_drainEvents rmw req⟩
  exact runEverywhere_remoteAttempts rmw req

/-- C1 witness: a healthy primary with one unreachable secondary returns
the primary's value, records the secondary's completed (exhausted)
attempt, and drains silently. -/
theorem C1_secondary_containment_witness :
    (runEverywhere ⟨goodConn, [brokenConn], 3⟩
        (.simple "delete" [.str "good"])).result =
      (attemptRequest 3 goodConn (.simple "delete" [.str "good"])).result
    ∧ (runEverywhere ⟨goodConn, [brokenConn], 3⟩
        (.simple "delete" [.str "good"])).remoteAttempts =
      [brokenConn].map
        (fun c => attemptRequest 3 c (.simple "delete" [.str "good"]))
    ∧ (runEverywhere ⟨goodConn, [brokenConn], 3⟩
        (.simple "delete" [.str "good"])).drainEvents = [] :=
  C1_secondary_containment ⟨goodConn, [brokenConn], 3⟩
    (.simple "delete" [.str "good"]) (by simp)

/-- C2: with retry budget `R ≥ 1`, a destination attempt invokes the
underlying operation at most `R` times: failing `k-1` times on
connectivity and succeeding on invocation `k ≤ R` gives exactly `k`
invocations and the success value; failing all `R` times gives exactly `R`
invocations and `TooManyRetries` carrying the last connectivity error's
message and the destination's host label, which falls back to the
"[Unknown]" sentinel when the host is unresolvable. -/
theorem C2_retry_budget (c : Conn) (op : String) (args : List RValue)
    (R k : Nat) (msgs : Nat → String) (v : RValue)
    (hop : c.methods op = true) (hR : 1 ≤ R) :
    (1 ≤ k → k ≤ R →
      (∀ j, j < k - 1 →
        c.behavior j op args = .exn (.connectionError (msgs j))) →
      c.behavior (k - 1) op args = .ok v →
      attempt R c op args =
        { result := .ok v, log := List.replicate k op,
          events := List.replicate (k - 1)
            (.logWarn ("Connectivity issue with " ++ hostLabel c)) })
    ∧ ((∀ j, j < R →
        c.behavior j op args = .exn (.connectionError (msgs j))) →
      attempt R c op args =
        { result := .error (.tooManyRetries (msgs (R - 1)) (hostLabel c)),
          log := List.replicate R op,
          events := List.replicate R
              (.logWarn ("Connectivity issue with " ++ hostLabel c)) ++
            [.yield] })
    ∧ (c.host = none → hostLabel c = "[Unknown]") := by
  refine ⟨?_, ?_, ?_⟩
  · intro hk hkR hbeh hok
    have key := attempt_succeed R c op args msgs v (k - 1) hop (by omega) hbeh hok
    have hidx : k - 1 + 1 = k := by omega
    rwa [hidx] at key
  · intro hbeh
    exact attempt_exhaust R c op args msgs hop hR hbeh
  · intro h
    simp [hostLabel, h]

/-- C2 witness: with budget 3, a destination failing twice then succeeding
makes exactly 3 invocations and returns the value; a destination always
failing makes exactly 3 invocations and fails with `TooManyRetries`. -/
theorem C2_retry_budget_witness :
    attempt 3 flakyConn "set" [.str "k", .str "v"] =
      { result := .ok (.int 1), log := List.replicate 3 "set",
        events := List.replicate 2
          (.logWarn ("Connectivity issue with " ++ hostLabel flakyConn)) }
    ∧ attempt 3 brokenConn "set" [.str "k", .str "v"] =
      { result := .error
          (.tooManyRetries "connection refused" (hostLabel brokenConn)),
        log := List.replicate 3 "set",
        events := List.replicate 3
            (.logWarn ("Connectivity issue with " ++ hostLabel brokenConn)) ++
          [.yield] } :=
  ⟨(C2_retry_budget flakyConn "set" [.str "k", .str "v"] 3 3
      (fun n => "fail " ++ toString n) (.int 1) (by decide) (by decide)).1
    (by decide) (by decide) (by decide) (by decide),
   (C2_retry_budget brokenConn "set" [.str "k", .str "v"] 3 3
      (fun _ => "connection refused") (.int 1) (by decide) (by decide)).2.1
    (by decide)⟩

/-- C3: `pipeline_everywhere` wraps the ordered commands as a batch
request through the fan-out coordinator; against destinations whose
invocations all succeed it produces on every destination the call
sequence [pipeline-open, each operation in order, execute] and returns
the primary's execute result. -/
theorem C3_pipeline_everywhere (rmw : RedisMultiWrite)
    (cmds : List (String × List RValue))
    (g : Nat → String → List RValue → RValue)
    (hR : 1 ≤ rmw.retries)
    (hlpipe : rmw.loc.methods "pipeline" = true)
    (hlexec : rmw.loc.methods "execute" = true)
    (hlops : ∀ p ∈ cmds, rmw.loc.methods p.fst = true)
    (hlb : ∀ n op args, rmw.loc.behavior n op args = .ok (g n op args))
    (hrem : ∀ c ∈ rmw.remote, c.methods "pipeline" = true ∧
      c.methods "execute" = true ∧ (∀ p ∈ cmds, c.methods p.fst = true) ∧
      ∃ gc : Nat → String → List RValue → RValue,
        ∀ n op args, c.behavior n op args = .ok (gc n op args)) :
    (pipeline_everywhere rmw cmds).result =
        .ok (g (cmds.length + 1) "execute" [])
    ∧ (pipeline_everywhere rmw cmds).locAttempt.log =
        "pipeline" :: (cmds.map Prod.fst ++ ["execute"])
    ∧ ∀ a ∈ (pipeline_everywhere rmw cmds).remoteAttempts,
        a.log = "pipeline" :: (cmds.map Prod.fst ++ ["execute"]) := by
  have hlocKey := attemptRequest_batch_allOk rmw.retries rmw.loc g cmds hlb hR
    hlpipe hlexec hlops
  refine ⟨?_, ?_, ?_⟩
  · rw [pipeline_everywhere, runEverywhere_result_eq, hlocKey]
  · rw [pipeline_everywhere, runEverywhere_locAttempt, hlocKey]
  · intro a ha
    rw [pipeline_everywhere, runEverywhere_remoteAttempts] at ha
    obtain ⟨c, hc, rfl⟩ := List.mem_map.mp ha
    obtain ⟨hp, he, hops, gc, hgc⟩ := hrem c hc
    rw [attemptRequest_batch_allOk rmw.retries c gc cmds hgc hR hp he hops]

/-- C3 witness: the test scenario — `[("set",(k,v)), ("delete",(k,))]`
against a healthy primary and one healthy secondary. -/
theorem C3_pipeline_everywhere_witness :
    (pipeline_everywhere ⟨goodConn, [goodConn], 3⟩
        [("set", [.str "good", .str "value"]), ("delete", [.str "good"])]).result =
      .ok (.int 1)
    ∧ (pipeline_everywhere ⟨goodConn, [goodConn], 3⟩
        [("set", [.str "good", .str "value"]), ("delete", [.str "good"])]).locAttempt.log =
      "pipeline" :: (([("set", [RValue.str "good", RValue.str "value"]),
        ("delete", [RValue.str "good"])].map Prod.fst) ++ ["execute"])
    ∧ ∀ a ∈ (pipeline_everywhere ⟨goodConn, [goodConn], 3⟩
        [("set", [.str "good", .str "value"]), ("delete", [.str "good"])]).remoteAttempts,
        a.log = "pipeline" :: (([("set", [RValue.str "good", RValue.str "value"]),
          ("delete", [RValue.str "good"])].map Prod.fst) ++ ["execute"]) :=
  C3_pipeline_everywhere ⟨goodConn, [goodConn], 3⟩
    [("set", [.str "good", .str "value"]), ("delete", [.str "good"])]
    (fun _ _ _ => .int 1) (by decide) (by decide) (by decide) (by decide)
    (fun _ _ _ => rfl)
    (by
      intro c hc
      simp only [List.mem_singleton] at hc
      subst hc
      exact ⟨by decide, by decide, by decide, ⟨fun _ _ _ => .int 1, fun _ _ _ => rfl⟩⟩)

/-- C4: a non-connectivity store error is never retried — it propagates on
the very invocation that raises it (after `m` connectivity failures,
exactly `m+1` invocations happen, with no further budget consumed) — and
the fan-out coordinator passes the primary's exception to the caller
unchanged, for store errors and for every other primary exception. -/
theorem C4_store_error_no_retry (c : Conn) (op : String) (args : List RValue)
    (R m : Nat) (e : Exc) (msgs : Nat → String)
    (hop : c.methods op = true) (hm : m < R)
    (hconn : isConnectionError e = false) (hred : isRedisError e = true)
    (hbeh : ∀ j, j < m →
      c.behavior j op args = .exn (.connectionError (msgs j)))
    (herr : c.behavior m op args = .exn e) :
    attempt R c op args =
      { result := .error e, log := List.replicate (m + 1) op,
        events := List.replicate m
            (.logWarn ("Connectivity issue with " ++ hostLabel c)) ++
          [.logException ("Redis exception with " ++ hostLabel c), .yield] }
    ∧ (∀ rmw : RedisMultiWrite, rmw.loc = c → rmw.retries = R →
        (runEverywhere rmw (.simple op args)).result = .error e)
    ∧ (∀ (rmw : RedisMultiWrite) (req : WriteRequest),
        (runEverywhere rmw req).result =
          (attemptRequest rmw.retries rmw.loc req).result) := by
  have key := attempt_storeErr R c op args msgs e m hop hm hconn hred hbeh herr
  refine ⟨key, ?_, fun rmw req => runEverywhere_result_eq rmw req⟩
  intro rmw hloc hret
  rw [runEverywhere_result_eq, hloc, hret]
  have : attemptRequest R c (.simple op args) = attempt R c op args := rfl
  rw [this, key]

/-- C4 witness: a destination raising a non-connectivity `redis.RedisError`
on its first invocation — the attempt makes exactly one invocation and the
coordinator surfaces that exact error. -/
theorem C4_store_error_no_retry_witness :
    attempt 3 storeErrConn "expire" [.str "good", .int 10] =
      { result := .error (.redisError "bad command"),
        log := List.replicate 1 "expire",
        events := List.replicate 0
            (.logWarn ("Connectivity issue with " ++ hostLabel storeErrConn)) ++
          [.logException ("Redis exception with " ++ hostLabel storeErrConn),
           .yield] }
    ∧ (runEverywhere ⟨storeErrConn, [goodConn], 3⟩
        (.simple "expire" [.str "good", .int 10])).result =
      .error (.redisError "bad command") :=
  ⟨(C4_store_error_no_retry storeErrConn "expire" [.str "good", .int 10] 3 0
      (.redisError "bad command") (fun _ => "") (by decide) (by decide)
      (by decide) (by decide) (by decide) (by decide)).1,
   (C4_store_error_no_retry storeErrConn "expire" [.str "good", .int 10] 3 0
      (.redisError "bad command") (fun _ => "") (by decide) (by decide)
      (by decide) (by decide) (by decide) (by decide)).2.1
    ⟨storeErrConn, [goodConn], 3⟩ rfl rfl⟩

/-- C5 counterexample: with zero secondaries and a primary whose
invocations fail with connectivity errors, `op_everywhere` is NOT
identical to calling `op` directly on the primary: the direct call raises
the underlying `redis.ConnectionError` after one invocation, while the
replicated call retries three times and raises `TooManyRetries`. -/
theorem C5_counterexample :
    (runEverywhere ⟨brokenConn, [], 3⟩
        (.simple "delete" [.str "good"])).result ≠
      (directCall brokenConn "delete" [.str "good"]).fst
    ∧ (runEverywhere ⟨brokenConn, [], 3⟩
        (.simple "delete" [.str "good"])).locAttempt.log ≠
      (directCall brokenConn "delete" [.str "good"]).snd := by
  decide

/-- C5 (amended): with zero secondaries, `op_everywhere` executes the
Attempt Runner synchronously against the primary and returns or
propagates its outcome directly — no pool, no coordinator logging, no
drain; it coincides with calling `op` directly on the primary whenever
the first invocation succeeds. -/
theorem C5_no_secondaries (rmw : RedisMultiWrite) (req : WriteRequest)
    (h : rmw.remote = []) :
    runEverywhere rmw req =
      { result := (attemptRequest rmw.retries rmw.loc req).result,
        locAttempt := attemptRequest rmw.retries rmw.loc req,
        remoteAttempts := [], coordEvents := [], drainEvents := [] }
    ∧ ∀ (op : String) (args : List RValue) (v : RValue) (log2 : List String),
        invoke rmw.loc [] op args = (.ok v, log2) → 1 ≤ rmw.retries →
        req = .simple op args →
        (runEverywhere rmw req).result = (directCall rmw.loc op args).fst := by
  refine ⟨runEverywhere_noRemote rmw req h, ?_⟩
  intro op args v log2 hinv hR hreq
  subst hreq
  obtain ⟨n, hn⟩ : ∃ k, rmw.retries = k + 1 := ⟨rmw.retries - 1, by omega⟩
  have hexec : execRequest rmw.loc [] (.simple op args) = (.ok v, log2) := hinv
  rw [runEverywhere_result_eq]
  unfold attemptRequest
  rw [hn, attemptLoop_okStep rmw.loc _ (hostLabel rmw.loc) n none [] log2 [] v hexec]
  simp [directCall, hinv]

/-- C5 witness: with zero secondaries and a healthy primary, the
replicated call's outcome is the Attempt Runner's outcome and coincides
with the direct call. -/
theorem C5_no_secondaries_witness :
    runEverywhere ⟨goodConn, [], 3⟩ (.simple "get" [.str "good"]) =
      { result := (attemptRequest 3 goodConn (.simple "get" [.str "good"])).result,
        locAttempt := attemptRequest 3 goodConn (.simple "get" [.str "good"]),
        remoteAttempts := [], coordEvents := [], drainEvents := [] }
    ∧ (runEverywhere ⟨goodConn, [], 3⟩ (.simple "get" [.str "good"])).result =
      (directCall goodConn "get" [.str "good"]).fst :=
  ⟨(C5_no_secondaries ⟨goodConn, [], 3⟩ (.simple "get" [.str "good"]) rfl).1,
   (C5_no_secondaries ⟨goodConn, [], 3⟩ (.simple "get" [.str "good"]) rfl).2
    "get" [.str "good"] (.int 1) ["get"] (by decide) (by decide) rfl⟩

/-- C6: calling any name that is neither defined on the proxy nor present
on the primary's capability surface fails with `AttributeError`
(attribute-not-found semantics) and no destination — primary or secondary
— records any invocation. -/
theorem C6_missing_operation (rmw : RedisMultiWrite) (name : String)
    (args : List RValue)
    (hdef : name ∉ definedAttrs) (hloc : rmw.loc.methods name = false) :
    proxyCall rmw name args =
      some (.error (.attributeError name), [],
        rmw.remote.map (fun _ => [])) := by
  have h1 : ¬name = "delete_everywhere" := fun h => hdef (by rw [h]; decide)
  have h2 : ¬name = "set_everywhere" := fun h => hdef (by rw [h]; decide)
  have h3 : ¬name = "setex_everywhere" := fun h => hdef (by rw [h]; decide)
  have h4 : ¬name = "expire_everywhere" := fun h => hdef (by rw [h]; decide)
  simp [proxyCall, h1, h2, h3, h4, hdef, hloc]

/-- C6 witness: `foo_everywhere` does not exist on the primary's surface;
the call raises `AttributeError` and every destination's invocation log is
empty. -/
theorem C6_missing_operation_witness :
    proxyCall ⟨goodConn, [goodConn, brokenConn], 3⟩ "foo_everywhere"
        [.str "stuff"] =
      some (.error (.attributeError "foo_everywhere"), [],
        ([goodConn, brokenConn] : List Conn).map (fun _ => [])) :=
  C6_missing_operation ⟨goodConn, [goodConn, brokenConn], 3⟩ "foo_everywhere"
    [.str "stuff"] (by decide) (by decide)

/-- C7 counterexample: a secondary that exhausts its retries fails with
`TooManyRetries`, yet draining it produces no events at all and the
coordinator logs nothing about it — the failure is discarded silently,
not "logged and discarded" as the claim states. -/
theorem C7_counterexample :
    ((runEverywhere ⟨goodConn, [brokenConn], 3⟩
        (.simple "delete" [.str "good"])).remoteAttempts.map
          (fun a => a.result)) =
      [.error (.tooManyRetries "connection refused" "broken")]
    ∧ (runEverywhere ⟨goodConn, [brokenConn], 3⟩
        (.simple "delete" [.str "good"])).drainEvents = []
    ∧ (runEverywhere ⟨goodConn, [brokenConn], 3⟩
        (.simple "delete" [.str "good"])).coordEvents = [] := by
  decide

/-- C7 (amended): while draining secondary attempts, every secondary
outcome — success, `TooManyRetries`, or any other exception — is
discarded silently: `_wait_pile` suppresses all exceptions, emits no log
records, and the caller-visible result stays the primary attempt's
outcome. -/
theorem C7_drain_discards_silently (rmw : RedisMultiWrite)
    (req : WriteRequest) :
    (runEverywhere rmw req).drainEvents = []
    ∧ (runEverywhere rmw req).result =
        (attemptRequest rmw.retries rmw.loc req).result
    ∧ ∀ results : List (Except Exc RValue), waitPile results = [] :=
  ⟨runEverywhere_drainEvents rmw req, runEverywhere_result_eq rmw req,
   waitPile_eq_nil⟩

/-- C8 counterexample: a retry iteration that ends in a connectivity
failure is followed by NO voluntary yield: a destination failing once
then succeeding produces two invocations and a single connectivity
warning, with no yield event anywhere in the attempt. -/
theorem C8_counterexample :
    (attempt 3 onceFlakyConn "set" [.str "k", .str "v"]).log = ["set", "set"]
    ∧ (attempt 3 onceFlakyConn "set" [.str "k", .str "v"]).events =
      [.logWarn "Connectivity issue with onceflaky"]
    ∧ Event.yield ∉ (attempt 3 onceFlakyConn "set" [.str "k", .str "v"]).events := by
  decide

/-- C8 (amended): within one destination attempt, the only voluntary
yields are the single yield immediately before raising `TooManyRetries`
and the single yield immediately before re-raising a non-connectivity
store error; connectivity-failure iterations and successful attempts
yield nothing. -/
theorem C8_yield_only_before_raise (c : Conn) (op : String)
    (args : List RValue) (R m : Nat) (msgs : Nat → String) (v : RValue)
    (e : Exc) (hop : c.methods op = true) (hR : 1 ≤ R) :
    ((∀ j, j < m → c.behavior j op args = .exn (.connectionError (msgs j))) →
      m < R → c.behavior m op args = .ok v →
      (attempt R c op args).events = List.replicate m
        (.logWarn ("Connectivity issue with " ++ hostLabel c)))
    ∧ ((∀ j, j < R → c.behavior j op args = .exn (.connectionError (msgs j))) →
      (attempt R c op args).events = List.replicate R
          (.logWarn ("Connectivity issue with " ++ hostLabel c)) ++ [.yield])
    ∧ ((∀ j, j < m → c.behavior j op args = .exn (.connectionError (msgs j))) →
      m < R → c.behavior m op args = .exn e →
      isConnectionError e = false → isRedisError e = true →
      (attempt R c op args).events = List.replicate m
          (.logWarn ("Connectivity issue with " ++ hostLabel c)) ++
        [.logException ("Redis exception with " ++ hostLabel c), .yield]) := by
  refine ⟨?_, ?_, ?_⟩
  · intro hbeh hm hok
    rw [attempt_succeed R c op args msgs v m hop hm hbeh hok]
  · intro hbeh
    rw [attempt_exhaust R c op args msgs hop hR hbeh]
  · intro hbeh hm herr hconn hred
    rw [attempt_storeErr R c op args msgs e m hop hm hconn hred hbeh herr]

/-- C8 amended-claim witness: the three trace shapes at concrete
destinations — success after one connectivity failure (no yield), full
exhaustion (one yield, at the end), and an immediate store error (one
yield, after the exception log). -/
theorem C8_yield_only_before_raise_witness :
    ((attempt 3 onceFlakyConn "get" [.str "good"]).events = List.replicate 1
      (.logWarn ("Connectivity issue with " ++ hostLabel onceFlakyConn)))
    ∧ ((attempt 3 brokenConn "get" [.str "good"]).events = List.replicate 3
        (.logWarn ("Connectivity issue with " ++ hostLabel brokenConn)) ++
      [.yield])
    ∧ ((attempt 3 storeErrConn "get" [.str "good"]).events = List.replicate 0
        (.logWarn ("Connectivity issue with " ++ hostLabel storeErrConn)) ++
      [.logException ("Redis exception with " ++ hostLabel storeErrConn),
       .yield]) :=
  ⟨(C8_yield_only_before_raise onceFlakyConn "get" [.str "good"] 3 1
      (fun _ => "fail 0") (.int 1) (.otherError "") (by decide) (by decide)).1
    (by decide) (by decide) (by decide),
   (C8_yield_only_before_raise brokenConn "get" [.str "good"] 3 0
      (fun _ => "connection refused") (.int 1) (.otherError "") (by decide)
      (by decide)).2.1 (by decide),
   (C8_yield_only_before_raise storeErrConn "get" [.str "good"] 3 0
      (fun _ => "") (.int 1) (.redisError "bad command") (by decide)
      (by decide)).2.2 (by decide) (by decide) (by decide) (by decide)
    (by decide)⟩

/-- C9: each named replicated operation derives its return from the
primary's attempt: `delete_everywhere` returns the boolean coercion of
the primary's delete result (true exactly when the deleted-key count is
truthy, i.e. the key existed), and `set_everywhere`, `setex_everywhere`,
`expire_everywhere` return the primary's success indicator unchanged. -/
theorem C9_named_ops_primary_result (rmw : RedisMultiWrite)
    (key seconds value : RValue) :
    (∀ v, (attemptRequest rmw.retries rmw.loc (.simple "delete" [key])).result
        = .ok v →
      (delete_everywhere rmw key).result = .ok (.bool (truthy v)))
    ∧ (∀ n : Int, truthy (.int n) = decide (n ≠ 0))
    ∧ (∀ v, (attemptRequest rmw.retries rmw.loc
        (.simple "set" [key, value])).result = .ok v →
      (set_everywhere rmw key value).result = .ok v)
    ∧ (∀ v, (attemptRequest rmw.retries rmw.loc
        (.simple "setex" [key, seconds, value])).result = .ok v →
      (setex_everywhere rmw key seconds value).result = .ok v)
    ∧ (∀ v, (attemptRequest rmw.retries rmw.loc
        (.simple "expire" [key, seconds])).result = .ok v →
      (expire_everywhere rmw key seconds).result = .ok v) := by
  refine ⟨?_, fun n => rfl, ?_, ?_, ?_⟩
  · intro v hv
    simp [delete_everywhere, runEverywhere_result_eq, hv, Except.map]
  · intro v hv
    simp [set_everywhere, runEverywhere_result_eq, hv]
  · intro v hv
    simp [setex_everywhere, runEverywhere_result_eq, hv]
  · intro v hv
    simp [expire_everywhere, runEverywhere_result_eq, hv]

/-- C9 witness: against a healthy primary returning count 1,
`delete_everywhere` returns `bool true` and the other named operations
return the primary's value unchanged. -/
theorem C9_named_ops_primary_result_witness :
    (delete_everywhere ⟨goodConn, [brokenConn], 3⟩ (.str "good")).result =
      .ok (.bool (truthy (.int 1)))
    ∧ truthy (.int 1) = decide ((1 : Int) ≠ 0)
    ∧ (set_everywhere ⟨goodConn, [brokenConn], 3⟩ (.str "good")
        (.str "value")).result = .ok (.int 1)
    ∧ (setex_everywhere ⟨goodConn, [brokenConn], 3⟩ (.str "good") (.int 10)
        (.str "value")).result = .ok (.int 1)
    ∧ (expire_everywhere ⟨goodConn, [brokenConn], 3⟩ (.str "good")
        (.int 10)).result = .ok (.int 1) :=
  ⟨(C9_named_ops_primary_result ⟨goodConn, [brokenConn], 3⟩ (.str "good")
      (.int 10) (.str "value")).1 (.int 1) (by decide),
   (C9_named_ops_primary_result ⟨goodConn, [brokenConn], 3⟩ (.str "good")
      (.int 10) (.str "value")).2.1 1,
   (C9_named_ops_primary_result ⟨goodConn, [brokenConn], 3⟩ (.str "good")
      (.int 10) (.str "value")).2.2.1 (.int 1) (by decide),
   (C9_named_ops_primary_result ⟨goodConn, [brokenConn], 3⟩ (.str "good")
      (.int 10) (.str "value")).2.2.2.1 (.int 1) (by decide),
   (C9_named_ops_primary_result ⟨goodConn, [brokenConn], 3⟩ (.str "good")
      (.int 10) (.str "value")).2.2.2.2 (.int 1) (by decide)⟩

/-- C10: `TooManyRetries` subclasses the connectivity error type — both
`except redis.ConnectionError` and `except redis.RedisError` would catch
it — and the instance raised on exhaustion carries verbatim the message of
the last recorded connectivity error and the destination's host label in
its `host` field. -/
theorem C10_retry_exhaustion_is_connectivity (msg hst : String) (c : Conn)
    (op : String) (args : List RValue) (R : Nat) (msgs : Nat → String)
    (hop : c.methods op = true) (hR : 1 ≤ R)
    (hbeh : ∀ j, j < R →
      c.behavior j op args = .exn (.connectionError (msgs j))) :
    isConnectionError (.tooManyRetries msg hst) = true
    ∧ isRedisError (.tooManyRetries msg hst) = true
    ∧ (Exc.tooManyRetries msg hst).message = msg
    ∧ ∃ E, (attempt R c op args).result = .error E
        ∧ isConnectionError E = true
        ∧ E.message = (Exc.connectionError (msgs (R - 1))).message
        ∧ E.hostOf = some (hostLabel c) := by
  refine ⟨rfl, rfl, rfl, .tooManyRetries (msgs (R - 1)) (hostLabel c), ?_, rfl, rfl, rfl⟩
  rw [attempt_exhaust R c op args msgs hop hR hbeh]

/-- C10 witness: the exhausted broken destination raises an exception the
connectivity `except` clause would catch, whose message is the last
connectivity error's message and whose `host` field is the destination
label. -/
theorem C10_retry_exhaustion_is_connectivity_witness :
    isConnectionError (.tooManyRetries "boom" "r1") = true
    ∧ isRedisError (.tooManyRetries "boom" "r1") = true
    ∧ (Exc.tooManyRetries "boom" "r1").message = "boom"
    ∧ ∃ E, (attempt 3 brokenConn "delete" [.str "good"]).result = .error E
        ∧ isConnectionError E = true
        ∧ E.message = (Exc.connectionError "connection refused").message
        ∧ E.hostOf = some (hostLabel brokenConn) :=
  C10_retry_exhaustion_is_connectivity "boom" "r1" brokenConn "delete"
    [.str "good"] 3 (fun _ => "connection refused") (by decide) (by decide)
    (by decide)

end RedisMW
